import Mathlib

set_option linter.unusedVariables false

/-!
Shallow embedding of `Libraries/Utilities/Alert.tizen.js`: the cross-platform
alert dispatcher `Alert.alert` and its three platform adapters
(`AlertAndroid`, `AlertWindows`, `AlertTizen`).

Conventions of the embedding:
* JS `null`/`undefined` optional values become `Option`.
* A caller-supplied `onPress` callback is represented by a `Nat` identifier;
  "invoking the callback" is recorded in a `CbOutcome` value.
* The config object's possibly-absent keys (`buttonNeutral`, `buttonNegative`,
  `buttonPositive`) become `Option String` fields, `none` meaning the key is
  absent from the object.
* A JS TypeError raised by a property access on `undefined` is modelled as the
  `CbOutcome.throwTypeError` outcome.
-/

/-- One element of the `Buttons` array type in the source: optional display
label, optional press callback (represented by an identifier), optional style
tag. -/
structure ButtonSpec where
  text : Option String
  onPress : Option Nat
  style : Option String
deriving DecidableEq

/-- JS `x || ''` for an optional string: `null`/`undefined` and the empty
string are both falsy, so both yield `''`. -/
def jsOr (x : Option String) : String := x.getD ""

/-- JS `Array.prototype.pop()` on the mutable `validButtons` array: yields the
last element (`undefined` when empty) and the remaining array. -/
def jsPop (xs : List ButtonSpec) : Option ButtonSpec × List ButtonSpec :=
  (xs.getLast?, xs.dropLast)

/-- The default button `{text: 'OK'}` substituted when `buttons` is absent. -/
def okButton : ButtonSpec := ⟨some "OK", none, none⟩

/-- `buttons ? buttons.slice(0, 3) : [{text: 'OK'}]` in `AlertAndroid.alert`.
Note an empty JS array is truthy, so only an absent (`null`/`undefined`)
`buttons` argument receives the default OK button. -/
def androidValidButtons (buttons : Option (List ButtonSpec)) : List ButtonSpec :=
  match buttons with
  | some bs => bs.take 3
  | none => [okButton]

/-- `buttons ? buttons.slice(0, 2) : [{text: 'OK'}]` in `AlertWindows.alert`. -/
def windowsValidButtons (buttons : Option (List ButtonSpec)) : List ButtonSpec :=
  match buttons with
  | some bs => bs.take 2
  | none => [okButton]

/-- `buttons ? buttons.slice(0, 3) : [{text: 'OK'}]` in `AlertTizen.alert`. -/
def tizenValidButtons (buttons : Option (List ButtonSpec)) : List ButtonSpec :=
  match buttons with
  | some bs => bs.take 3
  | none => [okButton]

/-- The three sequential `pop()` calls of a 3-slot adapter: positive first,
then negative, then neutral. Returns `(buttonNeutral, buttonNegative,
buttonPositive)`; a component is `none` when the corresponding local variable
is `undefined`. -/
def popRoles3 (vb : List ButtonSpec) :
    Option ButtonSpec × Option ButtonSpec × Option ButtonSpec :=
  let p := jsPop vb
  let n := jsPop p.2
  let u := jsPop n.2
  (u.1, n.1, p.1)

/-- The two sequential `pop()` calls of the 2-slot Windows adapter: positive
first, then negative. Returns `(buttonNegative, buttonPositive)`. -/
def popRoles2 (vb : List ButtonSpec) : Option ButtonSpec × Option ButtonSpec :=
  let p := jsPop vb
  let n := jsPop p.2
  (n.1, p.1)

/-- The `(buttonNeutral, buttonNegative, buttonPositive)` local variables of
`AlertAndroid.alert` as a function of the `buttons` argument. -/
def androidRoles (buttons : Option (List ButtonSpec)) :
    Option ButtonSpec × Option ButtonSpec × Option ButtonSpec :=
  popRoles3 (androidValidButtons buttons)

/-- The `(buttonNegative, buttonPositive)` local variables of
`AlertWindows.alert` as a function of the `buttons` argument. -/
def windowsRoles (buttons : Option (List ButtonSpec)) :
    Option ButtonSpec × Option ButtonSpec :=
  popRoles2 (windowsValidButtons buttons)

/-- The `(buttonNeutral, buttonNegative, buttonPositive)` local variables of
`AlertTizen.alert` as a function of the `buttons` argument. -/
def tizenRoles (buttons : Option (List ButtonSpec)) :
    Option ButtonSpec × Option ButtonSpec × Option ButtonSpec :=
  popRoles3 (tizenValidButtons buttons)

/-- The `config` object passed to the native module's `showAlert`. A `none`
role field models the key being absent from the object. -/
structure DialogConfig where
  title : String
  message : String
  buttonNeutral : Option String
  buttonNegative : Option String
  buttonPositive : Option String
deriving DecidableEq

/-- The config built by `AlertAndroid.alert`: title and message defaulted with
`|| ''`, then each role key added only when the popped button is truthy
(i.e. defined), with label `button.text || ''`. -/
def androidConfig (title message : Option String)
    (buttons : Option (List ButtonSpec)) : DialogConfig :=
  let r := androidRoles buttons
  { title := jsOr title
    message := jsOr message
    buttonNeutral := r.1.map (fun b => jsOr b.text)
    buttonNegative := r.2.1.map (fun b => jsOr b.text)
    buttonPositive := r.2.2.map (fun b => jsOr b.text) }

/-- The config built by `AlertWindows.alert` (no neutral slot). -/
def windowsConfig (title message : Option String)
    (buttons : Option (List ButtonSpec)) : DialogConfig :=
  let r := windowsRoles buttons
  { title := jsOr title
    message := jsOr message
    buttonNeutral := none
    buttonNegative := r.1.map (fun b => jsOr b.text)
    buttonPositive := r.2.map (fun b => jsOr b.text) }

/-- The config built by `AlertTizen.alert` (same shape as the Android one). -/
def tizenConfig (title message : Option String)
    (buttons : Option (List ButtonSpec)) : DialogConfig :=
  let r := tizenRoles buttons
  { title := jsOr title
    message := jsOr message
    buttonNeutral := r.1.map (fun b => jsOr b.text)
    buttonNegative := r.2.1.map (fun b => jsOr b.text)
    buttonPositive := r.2.2.map (fun b => jsOr b.text) }

/-- The constants a native dialog module exposes: the action code meaning
"button clicked" and the role key for each button slot. Action codes and role
keys are opaque scalar values compared with `===`; we model them as `Nat`. -/
structure DialogModule where
  buttonClicked : Nat
  buttonNeutral : Nat
  buttonNegative : Nat
  buttonPositive : Nat
deriving DecidableEq

/-- Outcome of one invocation of a result callback: returned without invoking
any `onPress`, invoked the `onPress` with the given identifier, or threw a
TypeError by accessing `.onPress` on an `undefined` role variable. -/
inductive CbOutcome where
  | ret : CbOutcome
  | press : Nat → CbOutcome
  | throwTypeError : CbOutcome
deriving DecidableEq

/-- The result callback closure of `AlertAndroid.alert`. `onPress &&
onPress()` is a silent no-op when `onPress` is absent on a defined button;
accessing `.onPress` on an `undefined` role variable throws. -/
def androidResultCallback (M : DialogModule) (buttons : Option (List ButtonSpec))
    (action buttonKey : Nat) : CbOutcome :=
  let r := androidRoles buttons
  if action ≠ M.buttonClicked then .ret
  else if buttonKey = M.buttonNeutral then
    match r.1 with
    | none => .throwTypeError
    | some b =>
      match b.onPress with
      | none => .ret
      | some f => .press f
  else if buttonKey = M.buttonNegative then
    match r.2.1 with
    | none => .throwTypeError
    | some b =>
      match b.onPress with
      | none => .ret
      | some f => .press f
  else if buttonKey = M.buttonPositive then
    match r.2.2 with
    | none => .throwTypeError
    | some b =>
      match b.onPress with
      | none => .ret
      | some f => .press f
  else .ret

/-- The result callback closure of `AlertWindows.alert` (no neutral branch). -/
def windowsResultCallback (M : DialogModule) (buttons : Option (List ButtonSpec))
    (action buttonKey : Nat) : CbOutcome :=
  let r := windowsRoles buttons
  if action ≠ M.buttonClicked then .ret
  else if buttonKey = M.buttonNegative then
    match r.1 with
    | none => .throwTypeError
    | some b =>
      match b.onPress with
      | none => .ret
      | some f => .press f
  else if buttonKey = M.buttonPositive then
    match r.2 with
    | none => .throwTypeError
    | some b =>
      match b.onPress with
      | none => .ret
      | some f => .press f
  else .ret

/-- The result callback closure of `AlertTizen.alert`: identical branching to
the Android one (its extra `console.log` calls do not affect the outcome and
never throw, logging `undefined` being legal). -/
def tizenResultCallback (M : DialogModule) (buttons : Option (List ButtonSpec))
    (action buttonKey : Nat) : CbOutcome :=
  let r := tizenRoles buttons
  if action ≠ M.buttonClicked then .ret
  else if buttonKey = M.buttonNeutral then
    match r.1 with
    | none => .throwTypeError
    | some b =>
      match b.onPress with
      | none => .ret
      | some f => .press f
  else if buttonKey = M.buttonNegative then
    match r.2.1 with
    | none => .throwTypeError
    | some b =>
      match b.onPress with
      | none => .ret
      | some f => .press f
  else if buttonKey = M.buttonPositive then
    match r.2.2 with
    | none => .throwTypeError
    | some b =>
      match b.onPress with
      | none => .ret
      | some f => .press f
  else .ret

/-- The value passed to `console.warn` by the Android adapter's error
callback `(errorMessage) => console.warn(message)`: the source warns the
alert's `message` argument, ignoring the reported `errorMessage`. -/
def androidErrorWarned (message : Option String) (errorMessage : String) :
    Option String :=
  message

/-- The value warned by the Windows adapter's error callback (same shape). -/
def windowsErrorWarned (message : Option String) (errorMessage : String) :
    Option String :=
  message

/-- The value warned by the Tizen adapter's error callback (same shape). -/
def tizenErrorWarned (message : Option String) (errorMessage : String) :
    Option String :=
  message

/-- Effects `Alert.alert` can produce: a call into `AlertIOS.alert` (4- or
3-argument form) or a `showAlert` on one of the three native dialog modules,
carrying the config that adapter builds. -/
inductive AlertEffect where
  | iosAlert4 : Option String → Option String → Option (List ButtonSpec) →
      String → AlertEffect
  | iosAlert3 : Option String → Option String → Option (List ButtonSpec) →
      AlertEffect
  | showAndroid : DialogConfig → AlertEffect
  | showWindows : DialogConfig → AlertEffect
  | showTizen : DialogConfig → AlertEffect
deriving DecidableEq

/-- What one call of the dispatcher did: whether the deprecation warning was
logged, and which external call was made (`none` = nothing happened). -/
structure DispatchResult where
  warned : Bool
  effect : Option AlertEffect
deriving DecidableEq

/-- `Alert.alert(title, message, buttons, type)`: string dispatch on
`Platform.OS`. On iOS a defined 4th argument logs the deprecation warning and
forwards all four arguments to `AlertIOS.alert`; otherwise three arguments are
forwarded. Other recognized platforms call their adapter; anything else falls
through the `if`/`else if` chain and does nothing. -/
def Alert.alert (platformOS : String) (title message : Option String)
    (buttons : Option (List ButtonSpec)) (type : Option String) :
    DispatchResult :=
  if platformOS = "ios" then
    match type with
    | some t => ⟨true, some (.iosAlert4 title message buttons t)⟩
    | none => ⟨false, some (.iosAlert3 title message buttons)⟩
  else if platformOS = "android" then
    ⟨false, some (.showAndroid (androidConfig title message buttons))⟩
  else if platformOS = "windows" then
    ⟨false, some (.showWindows (windowsConfig title message buttons))⟩
  else if platformOS = "tizen" then
    ⟨false, some (.showTizen (tizenConfig title message buttons))⟩
  else ⟨false, none⟩

/-! ### Helper notions used only in theorem statements -/

/-- A button slot name. -/
inductive Role where
  | neutral : Role
  | negative : Role
  | positive : Role
deriving DecidableEq

/-- The module's role-key constant for a slot. -/
def roleKey3 (M : DialogModule) : Role → Nat
  | .neutral => M.buttonNeutral
  | .negative => M.buttonNegative
  | .positive => M.buttonPositive

/-- Project a slot out of a 3-slot role assignment
`(neutral, negative, positive)`. -/
def roleSlot3 (r : Option ButtonSpec × Option ButtonSpec × Option ButtonSpec) :
    Role → Option ButtonSpec
  | .neutral => r.1
  | .negative => r.2.1
  | .positive => r.2.2

/-- Project a slot out of a 2-slot role assignment `(negative, positive)`;
the Windows adapter has no neutral slot. -/
def roleSlot2 (r : Option ButtonSpec × Option ButtonSpec) :
    Role → Option ButtonSpec
  | .neutral => none
  | .negative => r.1
  | .positive => r.2

/-- Which role the 3-slot callback's `if`/`else if` chain selects for a given
role key (first match wins, mirroring the source's branch order). -/
def dispatchedRole3 (M : DialogModule) (buttonKey : Nat) : Option Role :=
  if buttonKey = M.buttonNeutral then some .neutral
  else if buttonKey = M.buttonNegative then some .negative
  else if buttonKey = M.buttonPositive then some .positive
  else none

/-- Which role the 2-slot (Windows) callback's chain selects. -/
def dispatchedRole2 (M : DialogModule) (buttonKey : Nat) : Option Role :=
  if buttonKey = M.buttonNegative then some .negative
  else if buttonKey = M.buttonPositive then some .positive
  else none

/-- The body shared by every dispatched branch: an `undefined` slot throws,
a defined slot with absent `onPress` is a no-op, otherwise the callback is
invoked. -/
def cbOutcomeOf (slot : Option ButtonSpec) : CbOutcome :=
  match slot with
  | none => .throwTypeError
  | some b =>
    match b.onPress with
    | none => .ret
    | some f => .press f

/-- Number of button-role keys present in a config. -/
def countRoles (c : DialogConfig) : Nat :=
  (if c.buttonNeutral.isSome then 1 else 0) +
  (if c.buttonNegative.isSome then 1 else 0) +
  (if c.buttonPositive.isSome then 1 else 0)

/-- A concrete native module with the conventional distinct constants, used
for concrete evaluations. -/
def M0 : DialogModule := ⟨0, 1, 2, 3⟩

/-! ### Characterization lemmas for the result callbacks -/

lemma android_cb_eq (M : DialogModule) (buttons : Option (List ButtonSpec))
    (action buttonKey : Nat) :
    androidResultCallback M buttons action buttonKey =
      if action ≠ M.buttonClicked then .ret
      else
        match dispatchedRole3 M buttonKey with
        | none => .ret
        | some r => cbOutcomeOf (roleSlot3 (androidRoles buttons) r) := by
  unfold androidResultCallback dispatchedRole3 cbOutcomeOf roleSlot3
  by_cases h1 : action ≠ M.buttonClicked
  · simp only [if_pos h1]
  · by_cases h2 : buttonKey = M.buttonNeutral
    · simp only [if_neg h1, if_pos h2]
    · by_cases h3 : buttonKey = M.buttonNegative
      · simp only [if_neg h1, if_neg h2, if_pos h3]
      · by_cases h4 : buttonKey = M.buttonPositive
        · simp only [if_neg h1, if_neg h2, if_neg h3, if_pos h4]
        · simp only [if_neg h1, if_neg h2, if_neg h3, if_neg h4]

lemma windows_cb_eq (M : DialogModule) (buttons : Option (List ButtonSpec))
    (action buttonKey : Nat) :
    windowsResultCallback M buttons action buttonKey =
      if action ≠ M.buttonClicked then .ret
      else
        match dispatchedRole2 M buttonKey with
        | none => .ret
        | some r => cbOutcomeOf (roleSlot2 (windowsRoles buttons) r) := by
  unfold windowsResultCallback dispatchedRole2 cbOutcomeOf roleSlot2
  by_cases h1 : action ≠ M.buttonClicked
  · simp only [if_pos h1]
  · by_cases h2 : buttonKey = M.buttonNegative
    · simp only [if_neg h1, if_pos h2]
    · by_cases h3 : buttonKey = M.buttonPositive
      · simp only [if_neg h1, if_neg h2, if_pos h3]
      · simp only [if_neg h1, if_neg h2, if_neg h3]

lemma tizen_cb_eq (M : DialogModule) (buttons : Option (List ButtonSpec))
    (action buttonKey : Nat) :
    tizenResultCallback M buttons action buttonKey =
      if action ≠ M.buttonClicked then .ret
      else
        match dispatchedRole3 M buttonKey with
        | none => .ret
        | some r => cbOutcomeOf (roleSlot3 (tizenRoles buttons) r) := by
  unfold tizenResultCallback dispatchedRole3 cbOutcomeOf roleSlot3
  by_cases h1 : action ≠ M.buttonClicked
  · simp only [if_pos h1]
  · by_cases h2 : buttonKey = M.buttonNeutral
    · simp only [if_neg h1, if_pos h2]
    · by_cases h3 : buttonKey = M.buttonNegative
      · simp only [if_neg h1, if_neg h2, if_pos h3]
      · by_cases h4 : buttonKey = M.buttonPositive
        · simp only [if_neg h1, if_neg h2, if_neg h3, if_pos h4]
        · simp only [if_neg h1, if_neg h2, if_neg h3, if_neg h4]

/-! ### Role assignment on concrete list shapes -/

lemma androidRoles_nil : androidRoles (some []) = (none, none, none) := rfl

lemma androidRoles_one (a : ButtonSpec) :
    androidRoles (some [a]) = (none, none, some a) := rfl

lemma androidRoles_two (a b : ButtonSpec) :
    androidRoles (some [a, b]) = (none, some a, some b) := rfl

lemma androidRoles_big (a b c : ButtonSpec) (rest : List ButtonSpec) :
    androidRoles (some (a :: b :: c :: rest)) = (some a, some b, some c) := rfl

lemma androidRoles_none : androidRoles none = (none, none, some okButton) := rfl

lemma tizenRoles_eq_androidRoles : tizenRoles = androidRoles := rfl

lemma windowsRoles_nil : windowsRoles (some []) = (none, none) := rfl

lemma windowsRoles_one (a : ButtonSpec) :
    windowsRoles (some [a]) = (none, some a) := rfl

lemma windowsRoles_big (a b : ButtonSpec) (rest : List ButtonSpec) :
    windowsRoles (some (a :: b :: rest)) = (some a, some b) := rfl

lemma windowsRoles_none : windowsRoles none = (none, some okButton) := rfl

/-! ### Claim theorems -/

/-- C2 (code bug evidence): every adapter's error callback, declared
`(errorMessage) => console.warn(message)`, warns the alert's `message`
argument instead of the reported error message. Evaluated at an alert whose
message is "Hello" and a reported error "native failure": the string warned
is "Hello", which differs from the reported error. -/
theorem c2_error_callback_warns_alert_message :
    androidErrorWarned (some "Hello") "native failure" = some "Hello" ∧
    windowsErrorWarned (some "Hello") "native failure" = some "Hello" ∧
    tizenErrorWarned (some "Hello") "native failure" = some "Hello" ∧
    ("Hello" : String) ≠ "native failure" :=
  ⟨rfl, rfl, rfl, by decide⟩

/-- C3 (counterexample): an empty button list is truthy in JS, so no default
OK button is substituted — on every adapter the config built for `buttons =
[]` has no positive button at all, refuting "an empty button list yields a
single default OK positive button". -/
theorem c3_counterexample :
    (androidConfig none none (some [])).buttonPositive = none ∧
    (windowsConfig none none (some [])).buttonPositive = none ∧
    (tizenConfig none none (some [])).buttonPositive = none ∧
    ¬ (androidConfig none none (some [])).buttonPositive = some "OK" :=
  ⟨rfl, rfl, rfl, by decide⟩

/-- C3 (amended): the default single positive "OK" button appears exactly
when the `buttons` argument is absent (null/undefined); a supplied empty
button list instead yields a config with no button-role keys at all. Holds
for all three adapters. -/
theorem c3_amended_default_ok (t m : Option String) :
    ((androidConfig t m none).buttonPositive = some "OK" ∧
     (androidConfig t m none).buttonNegative = none ∧
     (androidConfig t m none).buttonNeutral = none) ∧
    ((windowsConfig t m none).buttonPositive = some "OK" ∧
     (windowsConfig t m none).buttonNegative = none ∧
     (windowsConfig t m none).buttonNeutral = none) ∧
    ((tizenConfig t m none).buttonPositive = some "OK" ∧
     (tizenConfig t m none).buttonNegative = none ∧
     (tizenConfig t m none).buttonNeutral = none) ∧
    ((androidConfig t m (some [])).buttonPositive = none ∧
     (androidConfig t m (some [])).buttonNegative = none ∧
     (androidConfig t m (some [])).buttonNeutral = none) ∧
    ((windowsConfig t m (some [])).buttonPositive = none ∧
     (windowsConfig t m (some [])).buttonNegative = none ∧
     (windowsConfig t m (some [])).buttonNeutral = none) ∧
    ((tizenConfig t m (some [])).buttonPositive = none ∧
     (tizenConfig t m (some [])).buttonNegative = none ∧
     (tizenConfig t m (some [])).buttonNeutral = none) :=
  ⟨⟨rfl, rfl, rfl⟩, ⟨rfl, rfl, rfl⟩, ⟨rfl, rfl, rfl⟩,
   ⟨rfl, rfl, rfl⟩, ⟨rfl, rfl, rfl⟩, ⟨rfl, rfl, rfl⟩⟩

/-- C6: with `buttons` absent and `title` and `message` absent, every adapter
sends exactly the config with empty title, empty message, a positive "OK"
button, and no negative or neutral key. -/
theorem c6_absent_arguments_default_config :
    androidConfig none none none =
      ⟨"", "", none, none, some "OK"⟩ ∧
    windowsConfig none none none =
      ⟨"", "", none, none, some "OK"⟩ ∧
    tizenConfig none none none =
      ⟨"", "", none, none, some "OK"⟩ :=
  ⟨rfl, rfl, rfl⟩

/-- C8: on a platform identifier that is none of "ios", "android", "windows",
"tizen", the dispatcher makes no external call and logs no warning. -/
theorem c8_unrecognized_platform_noop (p : String) (t m : Option String)
    (b : Option (List ButtonSpec)) (ty : Option String)
    (h : p ≠ "ios" ∧ p ≠ "android" ∧ p ≠ "windows" ∧ p ≠ "tizen") :
    Alert.alert p t m b ty = ⟨false, none⟩ := by
  obtain ⟨h1, h2, h3, h4⟩ := h
  simp [Alert.alert, h1, h2, h3, h4]

/-- Witness for C8 at the concrete platform string "web". -/
theorem c8_unrecognized_platform_noop_witness :
    Alert.alert "web" none none none none = ⟨false, none⟩ :=
  c8_unrecognized_platform_noop "web" none none none none (by decide)

/-- C9: on iOS a defined legacy 4th argument logs the deprecation warning and
forwards all four arguments unchanged to `AlertIOS.alert`; an absent 4th
argument forwards the three arguments with no warning. -/
theorem c9_ios_legacy_type_forwarding (t m : Option String)
    (b : Option (List ButtonSpec)) (ty : String) :
    Alert.alert "ios" t m b (some ty) =
      ⟨true, some (.iosAlert4 t m b ty)⟩ ∧
    Alert.alert "ios" t m b none =
      ⟨false, some (.iosAlert3 t m b)⟩ :=
  ⟨rfl, rfl⟩

lemma androidRoles_isSome_iff (bs : List ButtonSpec) :
    (((androidRoles (some bs)).1).isSome ↔ 3 ≤ bs.length) ∧
    (((androidRoles (some bs)).2.1).isSome ↔ 2 ≤ bs.length) ∧
    (((androidRoles (some bs)).2.2).isSome ↔ 1 ≤ bs.length) := by
  rcases bs with _ | ⟨a, _ | ⟨b, _ | ⟨c, rest⟩⟩⟩
  · simp [androidRoles_nil]
  · simp [androidRoles_one]
  · simp [androidRoles_two]
  · simp only [androidRoles_big, Option.isSome_some, List.length_cons]
    refine ⟨?_, ?_, ?_⟩ <;> simp

lemma windowsRoles_isSome_iff (bs : List ButtonSpec) :
    (((windowsRoles (some bs)).1).isSome ↔ 2 ≤ bs.length) ∧
    (((windowsRoles (some bs)).2).isSome ↔ 1 ≤ bs.length) := by
  rcases bs with _ | ⟨a, _ | ⟨b, rest⟩⟩
  · simp [windowsRoles_nil]
  · simp [windowsRoles_one]
  · simp only [windowsRoles_big, Option.isSome_some, List.length_cons]
    refine ⟨?_, ?_⟩ <;> simp

lemma androidConfig_buttonNeutral (t m : Option String)
    (buttons : Option (List ButtonSpec)) :
    (androidConfig t m buttons).buttonNeutral =
      ((androidRoles buttons).1).map (fun b => jsOr b.text) := rfl

lemma androidConfig_buttonNegative (t m : Option String)
    (buttons : Option (List ButtonSpec)) :
    (androidConfig t m buttons).buttonNegative =
      ((androidRoles buttons).2.1).map (fun b => jsOr b.text) := rfl

lemma androidConfig_buttonPositive (t m : Option String)
    (buttons : Option (List ButtonSpec)) :
    (androidConfig t m buttons).buttonPositive =
      ((androidRoles buttons).2.2).map (fun b => jsOr b.text) := rfl

lemma tizenConfig_eq_androidConfig : tizenConfig = androidConfig := rfl

lemma windowsConfig_buttonNegative (t m : Option String)
    (buttons : Option (List ButtonSpec)) :
    (windowsConfig t m buttons).buttonNegative =
      ((windowsRoles buttons).1).map (fun b => jsOr b.text) := rfl

lemma windowsConfig_buttonPositive (t m : Option String)
    (buttons : Option (List ButtonSpec)) :
    (windowsConfig t m buttons).buttonPositive =
      ((windowsRoles buttons).2).map (fun b => jsOr b.text) := rfl

lemma androidValidButtons_take (bs : List ButtonSpec) :
    androidValidButtons (some (bs.take 3)) = androidValidButtons (some bs) := by
  simp [androidValidButtons, List.take_take]

lemma tizenValidButtons_take (bs : List ButtonSpec) :
    tizenValidButtons (some (bs.take 3)) = tizenValidButtons (some bs) := by
  simp [tizenValidButtons, List.take_take]

lemma windowsValidButtons_take (bs : List ButtonSpec) :
    windowsValidButtons (some (bs.take 2)) = windowsValidButtons (some bs) := by
  simp [windowsValidButtons, List.take_take]

/-- C1: on the 3-slot adapters (Android-style, Tizen-style) role assignment
pops from the end of the truncated button list: for `[A, B, C]` the config
has positive = C's label, negative = B's, neutral = A's; for `[A, B]`
positive = B's, negative = A's and the neutral key is absent; in general a
role key is present exactly when enough buttons were supplied to fill it, so
a role with no assigned button is omitted. -/
theorem c1_role_assignment_last_to_first (t m : Option String)
    (A B C : ButtonSpec) (bs : List ButtonSpec) :
    ((androidConfig t m (some [A, B, C])).buttonPositive = some (jsOr C.text) ∧
     (androidConfig t m (some [A, B, C])).buttonNegative = some (jsOr B.text) ∧
     (androidConfig t m (some [A, B, C])).buttonNeutral = some (jsOr A.text)) ∧
    ((androidConfig t m (some [A, B])).buttonPositive = some (jsOr B.text) ∧
     (androidConfig t m (some [A, B])).buttonNegative = some (jsOr A.text) ∧
     (androidConfig t m (some [A, B])).buttonNeutral = none) ∧
    ((tizenConfig t m (some [A, B, C])).buttonPositive = some (jsOr C.text) ∧
     (tizenConfig t m (some [A, B, C])).buttonNegative = some (jsOr B.text) ∧
     (tizenConfig t m (some [A, B, C])).buttonNeutral = some (jsOr A.text)) ∧
    ((tizenConfig t m (some [A, B])).buttonPositive = some (jsOr B.text) ∧
     (tizenConfig t m (some [A, B])).buttonNegative = some (jsOr A.text) ∧
     (tizenConfig t m (some [A, B])).buttonNeutral = none) ∧
    ((androidConfig t m (some bs)).buttonNeutral.isSome ↔ 3 ≤ bs.length) ∧
    ((androidConfig t m (some bs)).buttonNegative.isSome ↔ 2 ≤ bs.length) ∧
    ((androidConfig t m (some bs)).buttonPositive.isSome ↔ 1 ≤ bs.length) ∧
    ((tizenConfig t m (some bs)).buttonNeutral.isSome ↔ 3 ≤ bs.length) ∧
    ((tizenConfig t m (some bs)).buttonNegative.isSome ↔ 2 ≤ bs.length) ∧
    ((tizenConfig t m (some bs)).buttonPositive.isSome ↔ 1 ≤ bs.length) := by
  obtain ⟨hu, hn, hp⟩ := androidRoles_isSome_iff bs
  refine ⟨⟨rfl, rfl, rfl⟩, ⟨rfl, rfl, rfl⟩, ⟨rfl, rfl, rfl⟩, ⟨rfl, rfl, rfl⟩,
    ?_, ?_, ?_, ?_, ?_, ?_⟩ <;>
    simp only [tizenConfig_eq_androidConfig, androidConfig_buttonNeutral,
      androidConfig_buttonNegative, androidConfig_buttonPositive,
      Option.isSome_map']
  · exact hu
  · exact hn
  · exact hp
  · exact hu
  · exact hn
  · exact hp

/-- C5: every adapter truncates the supplied button list to the platform
maximum keeping the earliest elements — the config built from `bs` equals the
one built from the truncation — and the config never carries more role keys
than the platform maximum (3 for Android/Tizen-style, 2 for Windows-style). -/
theorem c5_truncation_to_platform_max (t m : Option String)
    (bs : List ButtonSpec) (ob : Option (List ButtonSpec)) :
    androidConfig t m (some bs) = androidConfig t m (some (bs.take 3)) ∧
    tizenConfig t m (some bs) = tizenConfig t m (some (bs.take 3)) ∧
    windowsConfig t m (some bs) = windowsConfig t m (some (bs.take 2)) ∧
    countRoles (androidConfig t m ob) ≤ 3 ∧
    countRoles (tizenConfig t m ob) ≤ 3 ∧
    countRoles (windowsConfig t m ob) ≤ 2 := by
  refine ⟨?_, ?_, ?_, ?_, ?_, ?_⟩
  · unfold androidConfig androidRoles
    rw [androidValidButtons_take]
  · unfold tizenConfig tizenRoles
    rw [tizenValidButtons_take]
  · unfold windowsConfig windowsRoles
    rw [windowsValidButtons_take]
  · dsimp [countRoles]
    split_ifs <;> omega
  · dsimp [countRoles]
    split_ifs <;> omega
  · dsimp [countRoles, windowsConfig]
    split_ifs <;> omega

/-! ### Model form of the result callbacks and dispatch lemmas -/

/-- The common shape of a 3-slot result callback: guard on the action code,
select the first role whose key matches, then run the shared branch body. -/
def cbModel3 (M : DialogModule)
    (roles : Option ButtonSpec × Option ButtonSpec × Option ButtonSpec)
    (action buttonKey : Nat) : CbOutcome :=
  if action ≠ M.buttonClicked then .ret
  else
    match dispatchedRole3 M buttonKey with
    | none => .ret
    | some r => cbOutcomeOf (roleSlot3 roles r)

/-- The common shape of a 2-slot result callback. -/
def cbModel2 (M : DialogModule)
    (roles : Option ButtonSpec × Option ButtonSpec)
    (action buttonKey : Nat) : CbOutcome :=
  if action ≠ M.buttonClicked then .ret
  else
    match dispatchedRole2 M buttonKey with
    | none => .ret
    | some r => cbOutcomeOf (roleSlot2 roles r)

lemma android_cb_model (M : DialogModule) (buttons : Option (List ButtonSpec))
    (action buttonKey : Nat) :
    androidResultCallback M buttons action buttonKey =
      cbModel3 M (androidRoles buttons) action buttonKey :=
  android_cb_eq M buttons action buttonKey

lemma windows_cb_model (M : DialogModule) (buttons : Option (List ButtonSpec))
    (action buttonKey : Nat) :
    windowsResultCallback M buttons action buttonKey =
      cbModel2 M (windowsRoles buttons) action buttonKey :=
  windows_cb_eq M buttons action buttonKey

lemma tizen_cb_model (M : DialogModule) (buttons : Option (List ButtonSpec))
    (action buttonKey : Nat) :
    tizenResultCallback M buttons action buttonKey =
      cbModel3 M (tizenRoles buttons) action buttonKey :=
  tizen_cb_eq M buttons action buttonKey

lemma dispatchedRole3_eq_some_iff (M : DialogModule) (key : Nat) (r : Role)
    (hd : M.buttonNeutral ≠ M.buttonNegative ∧ M.buttonNeutral ≠ M.buttonPositive ∧
      M.buttonNegative ≠ M.buttonPositive) :
    dispatchedRole3 M key = some r ↔ key = roleKey3 M r := by
  obtain ⟨d1, d2, d3⟩ := hd
  unfold dispatchedRole3 roleKey3
  split_ifs with h1 h2 h3 <;> cases r <;> simp <;> omega

lemma dispatchedRole2_eq_some_iff (M : DialogModule) (key : Nat) (r : Role)
    (hd : M.buttonNegative ≠ M.buttonPositive) :
    dispatchedRole2 M key = some r ↔ (r ≠ Role.neutral ∧ key = roleKey3 M r) := by
  unfold dispatchedRole2 roleKey3
  split_ifs with h1 h2 <;> cases r <;> simp <;> omega

lemma cbModel3_ne_throw (M : DialogModule)
    (roles : Option ButtonSpec × Option ButtonSpec × Option ButtonSpec)
    (action key : Nat)
    (h : ∀ r, dispatchedRole3 M key = some r → (roleSlot3 roles r).isSome) :
    cbModel3 M roles action key ≠ CbOutcome.throwTypeError := by
  unfold cbModel3
  by_cases ha : action ≠ M.buttonClicked
  · rw [if_pos ha]
    exact fun hc => CbOutcome.noConfusion hc
  · rw [if_neg ha]
    cases hdr : dispatchedRole3 M key with
    | none => exact fun hc => CbOutcome.noConfusion hc
    | some r0 =>
      have hs := h r0 hdr
      cases hslot : roleSlot3 roles r0 with
      | none => rw [hslot] at hs; exact absurd hs (by simp)
      | some b =>
        show cbOutcomeOf (roleSlot3 roles r0) ≠ CbOutcome.throwTypeError
        rw [hslot]
        cases hb : b.onPress <;> simp [cbOutcomeOf, hb]

lemma cbModel2_ne_throw (M : DialogModule)
    (roles : Option ButtonSpec × Option ButtonSpec) (action key : Nat)
    (h : ∀ r, dispatchedRole2 M key = some r → (roleSlot2 roles r).isSome) :
    cbModel2 M roles action key ≠ CbOutcome.throwTypeError := by
  unfold cbModel2
  by_cases ha : action ≠ M.buttonClicked
  · rw [if_pos ha]
    exact fun hc => CbOutcome.noConfusion hc
  · rw [if_neg ha]
    cases hdr : dispatchedRole2 M key with
    | none => exact fun hc => CbOutcome.noConfusion hc
    | some r0 =>
      have hs := h r0 hdr
      cases hslot : roleSlot2 roles r0 with
      | none => rw [hslot] at hs; exact absurd hs (by simp)
      | some b =>
        show cbOutcomeOf (roleSlot2 roles r0) ≠ CbOutcome.throwTypeError
        rw [hslot]
        cases hb : b.onPress <;> simp [cbOutcomeOf, hb]

lemma cbModel3_onPress_none (M : DialogModule)
    (roles : Option ButtonSpec × Option ButtonSpec × Option ButtonSpec)
    (action key : Nat) (r : Role) (b : ButtonSpec)
    (hdr : dispatchedRole3 M key = some r) (hslot : roleSlot3 roles r = some b)
    (hb : b.onPress = none) :
    cbModel3 M roles action key = CbOutcome.ret := by
  simp [cbModel3, hdr, hslot, hb, cbOutcomeOf]

lemma cbModel2_onPress_none (M : DialogModule)
    (roles : Option ButtonSpec × Option ButtonSpec)
    (action key : Nat) (r : Role) (b : ButtonSpec)
    (hdr : dispatchedRole2 M key = some r) (hslot : roleSlot2 roles r = some b)
    (hb : b.onPress = none) :
    cbModel2 M roles action key = CbOutcome.ret := by
  simp [cbModel2, hdr, hslot, hb, cbOutcomeOf]

lemma cbModel3_throw_inv (M : DialogModule)
    (roles : Option ButtonSpec × Option ButtonSpec × Option ButtonSpec)
    (action key : Nat)
    (hc : cbModel3 M roles action key = CbOutcome.throwTypeError) :
    action = M.buttonClicked ∧
      ∃ r, dispatchedRole3 M key = some r ∧ roleSlot3 roles r = none := by
  unfold cbModel3 at hc
  by_cases ha : action ≠ M.buttonClicked
  · rw [if_pos ha] at hc
    exact absurd hc (by simp)
  · rw [if_neg ha] at hc
    refine ⟨not_not.mp ha, ?_⟩
    cases hdr : dispatchedRole3 M key with
    | none => rw [hdr] at hc; exact absurd hc (by simp)
    | some r0 =>
      simp only [hdr] at hc
      cases hslot : roleSlot3 roles r0 with
      | none => exact ⟨r0, rfl, hslot⟩
      | some b =>
        simp only [hslot, cbOutcomeOf] at hc
        cases hb : b.onPress <;> simp [hb] at hc

lemma cbModel2_throw_inv (M : DialogModule)
    (roles : Option ButtonSpec × Option ButtonSpec) (action key : Nat)
    (hc : cbModel2 M roles action key = CbOutcome.throwTypeError) :
    action = M.buttonClicked ∧
      ∃ r, dispatchedRole2 M key = some r ∧ roleSlot2 roles r = none := by
  unfold cbModel2 at hc
  by_cases ha : action ≠ M.buttonClicked
  · rw [if_pos ha] at hc
    exact absurd hc (by simp)
  · rw [if_neg ha] at hc
    refine ⟨not_not.mp ha, ?_⟩
    cases hdr : dispatchedRole2 M key with
    | none => rw [hdr] at hc; exact absurd hc (by simp)
    | some r0 =>
      simp only [hdr] at hc
      cases hslot : roleSlot2 roles r0 with
      | none => exact ⟨r0, rfl, hslot⟩
      | some b =>
        simp only [hslot, cbOutcomeOf] at hc
        cases hb : b.onPress <;> simp [hb] at hc

lemma cbModel3_press_iff (M : DialogModule)
    (roles : Option ButtonSpec × Option ButtonSpec × Option ButtonSpec)
    (action key f : Nat) :
    cbModel3 M roles action key = CbOutcome.press f ↔
      action = M.buttonClicked ∧
        ∃ r b, dispatchedRole3 M key = some r ∧ roleSlot3 roles r = some b ∧
          b.onPress = some f := by
  unfold cbModel3
  by_cases ha : action ≠ M.buttonClicked
  · rw [if_pos ha]
    simp [ha]
  · rw [if_neg ha]
    have hac : action = M.buttonClicked := not_not.mp ha
    cases hdr : dispatchedRole3 M key with
    | none => simp [hac]
    | some r0 =>
      cases hslot : roleSlot3 roles r0 with
      | none => simp [hac, hslot, cbOutcomeOf]
      | some b0 =>
        cases hb : b0.onPress with
        | none => simp [hac, hslot, hb, cbOutcomeOf]
        | some g => simp [hac, hslot, hb, cbOutcomeOf, eq_comm]

lemma cbModel2_press_iff (M : DialogModule)
    (roles : Option ButtonSpec × Option ButtonSpec) (action key f : Nat) :
    cbModel2 M roles action key = CbOutcome.press f ↔
      action = M.buttonClicked ∧
        ∃ r b, dispatchedRole2 M key = some r ∧ roleSlot2 roles r = some b ∧
          b.onPress = some f := by
  unfold cbModel2
  by_cases ha : action ≠ M.buttonClicked
  · rw [if_pos ha]
    simp [ha]
  · rw [if_neg ha]
    have hac : action = M.buttonClicked := not_not.mp ha
    cases hdr : dispatchedRole2 M key with
    | none => simp [hac]
    | some r0 =>
      cases hslot : roleSlot2 roles r0 with
      | none => simp [hac, hslot, cbOutcomeOf]
      | some b0 =>
        cases hb : b0.onPress with
        | none => simp [hac, hslot, hb, cbOutcomeOf]
        | some g => simp [hac, hslot, hb, cbOutcomeOf, eq_comm]

/-- C4 (counterexample): the claim that no input makes this layer throw is
false. With an empty button list every role variable is `undefined`; a
"button clicked" action whose role key is the positive-role constant makes
each adapter's result callback evaluate `.onPress` on `undefined`, throwing a
TypeError. -/
theorem c4_counterexample_throw_on_unassigned_role :
    androidResultCallback M0 (some []) 0 3 = CbOutcome.throwTypeError ∧
    windowsResultCallback M0 (some []) 0 3 = CbOutcome.throwTypeError ∧
    tizenResultCallback M0 (some []) 0 3 = CbOutcome.throwTypeError :=
  ⟨rfl, rfl, rfl⟩

/-- C4 (amended): the result callbacks never throw provided every role
constant the role key matches has a button assigned; in particular a selected
role whose ButtonSpec omits `onPress` is a silent no-op (`ret`); and a throw
happens only for a clicked action whose role key selects a role with no
assigned button. Stated for all three adapters. -/
theorem c4_amended_no_throw_on_assigned_roles (M : DialogModule)
    (buttons : Option (List ButtonSpec)) (action key : Nat) :
    (((∀ r, dispatchedRole3 M key = some r →
          (roleSlot3 (androidRoles buttons) r).isSome) →
        androidResultCallback M buttons action key ≠ CbOutcome.throwTypeError) ∧
     (∀ r b, dispatchedRole3 M key = some r →
        roleSlot3 (androidRoles buttons) r = some b → b.onPress = none →
        androidResultCallback M buttons action key = CbOutcome.ret) ∧
     (androidResultCallback M buttons action key = CbOutcome.throwTypeError →
        action = M.buttonClicked ∧
        ∃ r, dispatchedRole3 M key = some r ∧
          roleSlot3 (androidRoles buttons) r = none)) ∧
    (((∀ r, dispatchedRole2 M key = some r →
          (roleSlot2 (windowsRoles buttons) r).isSome) →
        windowsResultCallback M buttons action key ≠ CbOutcome.throwTypeError) ∧
     (∀ r b, dispatchedRole2 M key = some r →
        roleSlot2 (windowsRoles buttons) r = some b → b.onPress = none →
        windowsResultCallback M buttons action key = CbOutcome.ret) ∧
     (windowsResultCallback M buttons action key = CbOutcome.throwTypeError →
        action = M.buttonClicked ∧
        ∃ r, dispatchedRole2 M key = some r ∧
          roleSlot2 (windowsRoles buttons) r = none)) ∧
    (((∀ r, dispatchedRole3 M key = some r →
          (roleSlot3 (tizenRoles buttons) r).isSome) →
        tizenResultCallback M buttons action key ≠ CbOutcome.throwTypeError) ∧
     (∀ r b, dispatchedRole3 M key = some r →
        roleSlot3 (tizenRoles buttons) r = some b → b.onPress = none →
        tizenResultCallback M buttons action key = CbOutcome.ret) ∧
     (tizenResultCallback M buttons action key = CbOutcome.throwTypeError →
        action = M.buttonClicked ∧
        ∃ r, dispatchedRole3 M key = some r ∧
          roleSlot3 (tizenRoles buttons) r = none)) := by
  simp only [android_cb_model, windows_cb_model, tizen_cb_model]
  exact
    ⟨⟨fun h => cbModel3_ne_throw M (androidRoles buttons) action key h,
      fun r b h1 h2 h3 =>
        cbModel3_onPress_none M (androidRoles buttons) action key r b h1 h2 h3,
      fun hc => cbModel3_throw_inv M (androidRoles buttons) action key hc⟩,
     ⟨fun h => cbModel2_ne_throw M (windowsRoles buttons) action key h,
      fun r b h1 h2 h3 =>
        cbModel2_onPress_none M (windowsRoles buttons) action key r b h1 h2 h3,
      fun hc => cbModel2_throw_inv M (windowsRoles buttons) action key hc⟩,
     ⟨fun h => cbModel3_ne_throw M (tizenRoles buttons) action key h,
      fun r b h1 h2 h3 =>
        cbModel3_onPress_none M (tizenRoles buttons) action key r b h1 h2 h3,
      fun hc => cbModel3_throw_inv M (tizenRoles buttons) action key hc⟩⟩

/-- Witness for the amended C4: one button with omitted `onPress`, clicked in
the positive slot, completes as a silent no-op. -/
theorem c4_amended_no_throw_on_assigned_roles_witness :
    androidResultCallback M0 (some [⟨some "A", none, none⟩]) 0 3 =
      CbOutcome.ret :=
  (c4_amended_no_throw_on_assigned_roles M0 (some [⟨some "A", none, none⟩])
      0 3).1.2.1 Role.positive ⟨some "A", none, none⟩ (by decide) rfl rfl

/-- C7: assuming the service's three role-key constants are pairwise distinct
(as the real native modules provide them), an `onPress` with identifier `f`
is invoked exactly when the action code equals the service's "button clicked"
constant and the role key equals the role constant of a role whose assigned
ButtonSpec carries that `onPress`. In every other case — wrong action code,
role key matching no constant, role without `onPress` — no `onPress` fires. -/
theorem c7_onpress_fires_iff_clicked_and_assigned (M : DialogModule)
    (buttons : Option (List ButtonSpec)) (action key f : Nat)
    (hd : M.buttonNeutral ≠ M.buttonNegative ∧
      M.buttonNeutral ≠ M.buttonPositive ∧
      M.buttonNegative ≠ M.buttonPositive) :
    (androidResultCallback M buttons action key = CbOutcome.press f ↔
      action = M.buttonClicked ∧
        ∃ r b, key = roleKey3 M r ∧
          roleSlot3 (androidRoles buttons) r = some b ∧ b.onPress = some f) ∧
    (windowsResultCallback M buttons action key = CbOutcome.press f ↔
      action = M.buttonClicked ∧
        ∃ r b, r ≠ Role.neutral ∧ key = roleKey3 M r ∧
          roleSlot2 (windowsRoles buttons) r = some b ∧ b.onPress = some f) ∧
    (tizenResultCallback M buttons action key = CbOutcome.press f ↔
      action = M.buttonClicked ∧
        ∃ r b, key = roleKey3 M r ∧
          roleSlot3 (tizenRoles buttons) r = some b ∧ b.onPress = some f) :=
  ⟨by
    rw [android_cb_model, cbModel3_press_iff]
    exact and_congr_right fun _ => exists_congr fun r => exists_congr fun b =>
      and_congr (dispatchedRole3_eq_some_iff M key r hd) Iff.rfl,
   by
    rw [windows_cb_model, cbModel2_press_iff]
    exact and_congr_right fun _ => exists_congr fun r => exists_congr fun b =>
      (and_congr (dispatchedRole2_eq_some_iff M key r hd.2.2) Iff.rfl).trans
        and_assoc,
   by
    rw [tizen_cb_model, cbModel3_press_iff]
    exact and_congr_right fun _ => exists_congr fun r => exists_congr fun b =>
      and_congr (dispatchedRole3_eq_some_iff M key r hd) Iff.rfl⟩

/-- Witness for C7: the single supplied button, holding `onPress` number 7,
is the positive role; clicking it fires exactly that `onPress`. -/
theorem c7_onpress_fires_iff_clicked_and_assigned_witness :
    androidResultCallback M0 (some [⟨some "OK", some 7, none⟩]) 0 3 =
      CbOutcome.press 7 :=
  (c7_onpress_fires_iff_clicked_and_assigned M0
      (some [⟨some "OK", some 7, none⟩]) 0 3 7 (by decide)).1.mpr
    ⟨rfl, Role.positive, ⟨some "OK", some 7, none⟩, rfl, rfl, rfl⟩

/-- C10: a ButtonSpec assigned to a role whose label is omitted or empty
still contributes its role key to the config, with the empty string as the
label (`button.text || ''`), on every adapter and for every role. -/
theorem c10_missing_label_becomes_empty_string (t m : Option String)
    (buttons : Option (List ButtonSpec)) (b : ButtonSpec)
    (h : b.text = none ∨ b.text = some "") :
    ((roleSlot3 (androidRoles buttons) Role.neutral = some b →
        (androidConfig t m buttons).buttonNeutral = some "") ∧
     (roleSlot3 (androidRoles buttons) Role.negative = some b →
        (androidConfig t m buttons).buttonNegative = some "") ∧
     (roleSlot3 (androidRoles buttons) Role.positive = some b →
        (androidConfig t m buttons).buttonPositive = some "")) ∧
    ((roleSlot2 (windowsRoles buttons) Role.negative = some b →
        (windowsConfig t m buttons).buttonNegative = some "") ∧
     (roleSlot2 (windowsRoles buttons) Role.positive = some b →
        (windowsConfig t m buttons).buttonPositive = some "")) ∧
    ((roleSlot3 (tizenRoles buttons) Role.neutral = some b →
        (tizenConfig t m buttons).buttonNeutral = some "") ∧
     (roleSlot3 (tizenRoles buttons) Role.negative = some b →
        (tizenConfig t m buttons).buttonNegative = some "") ∧
     (roleSlot3 (tizenRoles buttons) Role.positive = some b →
        (tizenConfig t m buttons).buttonPositive = some "")) := by
  have hjs : jsOr b.text = "" := by
    rcases h with h | h <;> simp [jsOr, h]
  refine ⟨⟨?_, ?_, ?_⟩, ⟨?_, ?_⟩, ⟨?_, ?_, ?_⟩⟩ <;> intro hr
  · have hr' : (androidRoles buttons).1 = some b := hr
    simp [androidConfig_buttonNeutral, hr', hjs]
  · have hr' : (androidRoles buttons).2.1 = some b := hr
    simp [androidConfig_buttonNegative, hr', hjs]
  · have hr' : (androidRoles buttons).2.2 = some b := hr
    simp [androidConfig_buttonPositive, hr', hjs]
  · have hr' : (windowsRoles buttons).1 = some b := hr
    simp [windowsConfig_buttonNegative, hr', hjs]
  · have hr' : (windowsRoles buttons).2 = some b := hr
    simp [windowsConfig_buttonPositive, hr', hjs]
  · have hr' : (tizenRoles buttons).1 = some b := hr
    simp [tizenConfig_eq_androidConfig, tizenRoles_eq_androidRoles,
      androidConfig_buttonNeutral,
      tizenRoles_eq_androidRoles ▸ hr', hjs]
  · have hr' : (tizenRoles buttons).2.1 = some b := hr
    simp [tizenConfig_eq_androidConfig, tizenRoles_eq_androidRoles,
      androidConfig_buttonNegative,
      tizenRoles_eq_androidRoles ▸ hr', hjs]
  · have hr' : (tizenRoles buttons).2.2 = some b := hr
    simp [tizenConfig_eq_androidConfig, tizenRoles_eq_androidRoles,
      androidConfig_buttonPositive,
      tizenRoles_eq_androidRoles ▸ hr', hjs]

/-- Witness for C10: a single button with no `text` becomes the positive role
with label `""`, the key being present. -/
theorem c10_missing_label_becomes_empty_string_witness :
    (androidConfig none none (some [⟨none, none, none⟩])).buttonPositive =
      some "" :=
  (c10_missing_label_becomes_empty_string none none
      (some [⟨none, none, none⟩]) ⟨none, none, none⟩ (Or.inl rfl)).1.2.2 rfl
